import Mathlib

/-!
# Verification of the movie-discovery recommendation core

Shallow embedding of the recommendation engine
(`src/components/WatchlistButtons.tsx`, `RecommendationEngine` class) and of
the multi-provider rating aggregation (`src/lib/movieApi.ts`,
`calculateAggregatedScore`).  JavaScript numbers are modelled as exact
rationals (`ℚ`); the JavaScript value `Infinity`, which arises as
`Math.min()` of an empty argument list, is modelled by `Option ℤ`
(`none` = `Infinity`) where it can occur.
-/

unseal Rat.mul Rat.add Rat.sub Rat.inv

namespace MovieApp

/-! ## JavaScript numeric helpers

Kernel-reducible versions of `min`, `max` and `⌊·⌋` are used inside the
executable definitions (the Mathlib instances do not reduce under
`decide`); bridge lemmas relate them to the Mathlib operations. -/

/-- `Math.min(a, b)` on rationals. -/
def jsMin (a b : ℚ) : ℚ := if a ≤ b then a else b

/-- `Math.max(a, b)` on rationals. -/
def jsMax (a b : ℚ) : ℚ := if a ≤ b then b else a

/-- `Math.min(a, b)` on integers. -/
def intMin (a b : ℤ) : ℤ := if a ≤ b then a else b

/-- Floor of a rational, computably (`Rat.floor` from the standard
library). -/
def ratFloor (q : ℚ) : ℤ := q.floor

/-- `Math.round(x * 10) / 10`: rounding to one decimal digit.  JavaScript
`Math.round` rounds half-way cases towards `+∞`, i.e. `⌊x + 1/2⌋`. -/
def jsRound10 (x : ℚ) : ℚ := (ratFloor (x * 10 + 1 / 2) : ℤ) / 10

/-- `Math.ceil(n * 0.7)` for a list length `n : ℕ` (exact, agrees with the
floating-point computation for all list lengths that can occur). -/
def ceil70 (n : ℕ) : ℕ := (7 * n + 9) / 10

/-- `Math.min(...l)` over a spread list of integers: `none` models the
JavaScript result `Infinity` obtained for an empty argument list. -/
def jsMinList : List ℤ → Option ℤ
  | [] => none
  | y :: t =>
    some (match jsMinList t with
      | none => y
      | some m => intMin y m)

/-! ## Rating aggregation (`src/lib/movieApi.ts`) -/

/-- The structured ratings record built by `mergeOMDBData` /
`convertTMDBToEnhanced`: the primary (TMDB) score is always present
(possibly `0`), the other providers are optional.  Scores are on the
provider's native scale (0–10 for tmdb/imdb, 0–100 for the two
aggregators). -/
structure ProviderRatings where
  tmdb : ℚ
  imdb : Option ℚ
  rottenTomatoesCritics : Option ℚ
  metacritic : Option ℚ
  deriving DecidableEq

/-- JavaScript truthiness of `ratings.x?.score > 0`: an absent provider
(`undefined > 0` is `false`) and a non-positive score both fail the test. -/
def optPos : Option ℚ → Bool
  | none => false
  | some x => decide (0 < x)

/-- `calculateAggregatedScore` (movieApi.ts lines 290–326): collects
`(value, weight)` pairs for each provider whose score is `> 0` (rescaling
the 0–100 providers by `/ 10`), returns `0` if none qualify, otherwise the
weight-renormalized average rounded to one decimal. -/
def calculateAggregatedScore (r : ProviderRatings) : ℚ :=
  let scores : List (ℚ × ℚ) :=
    (if 0 < r.tmdb then [(r.tmdb, 1 / 4)] else []) ++
    (if optPos r.imdb then [(r.imdb.getD 0, 7 / 20)] else []) ++
    (if optPos r.rottenTomatoesCritics then
        [((r.rottenTomatoesCritics.getD 0) / 10, 1 / 4)] else []) ++
    (if optPos r.metacritic then [((r.metacritic.getD 0) / 10, 3 / 20)] else [])
  if scores = [] then 0
  else
    let totalWeight := (scores.map (·.2)).sum
    let weightedSum := (scores.map (fun s => s.1 * s.2)).sum
    jsRound10 (weightedSum / totalWeight)

/-- Claim-side formula (spec §4.1): weighted average of the present provider
scores — primary 0.25, secondary-critic 0.35, aggregator-critics 0.25
(score divided by 10), aggregator-metascore 0.15 (score divided by 10) —
with weights renormalized so the weights of present sources sum to 1; a
provider score of exactly 0 (or an absent provider) counts as no data, and
with no data at all the score is 0.  Stated without any rounding. -/
def specWeightedAverage (r : ProviderRatings) : ℚ :=
  let wT : ℚ := if 0 < r.tmdb then 1 / 4 else 0
  let wI : ℚ := if optPos r.imdb then 7 / 20 else 0
  let wR : ℚ := if optPos r.rottenTomatoesCritics then 1 / 4 else 0
  let wM : ℚ := if optPos r.metacritic then 3 / 20 else 0
  let totalW := wT + wI + wR + wM
  if totalW = 0 then 0
  else
    (wT * r.tmdb + wI * (r.imdb.getD 0) +
      wR * ((r.rottenTomatoesCritics.getD 0) / 10) +
      wM * ((r.metacritic.getD 0) / 10)) / totalW

/-! ## Data model for the recommendation engine -/

/-- Content kind of a catalog item (spec §3 `CatalogItem.kind`).  The
`EnhancedMovie` records fed to the engine do not retain this field; the
engine never reads it. -/
inductive MediaType where
  | movie
  | tv
  deriving DecidableEq

/-- A catalog item as consumed by the recommendation engine
(`EnhancedMovie`).  `vote_average = 0` and `popularity = 0` model the JS
falsy cases (absent or zero); `release_date = none` models an absent or
empty date string, `some y` a date whose `getFullYear()` is `y`;
`actors`/`director`/`original_language` are `none` when absent
(the empty string is a separate, falsy, present value). -/
structure Movie where
  id : ℤ
  kind : MediaType
  title : String
  vote_average : ℚ
  genre_ids : List ℤ
  release_date : Option ℤ
  popularity : ℚ
  original_language : Option String
  actors : Option String
  director : Option String
  deriving DecidableEq

/-- One entry of `favoriteGenres`. -/
structure GenrePref where
  id : ℤ
  name : String
  weight : ℚ
  deriving DecidableEq

structure RatingRange where
  min : ℚ
  max : ℚ
  deriving DecidableEq

/-- `preferredYearRange`; `min = none` models the JS value `Infinity`
(obtainable from `Math.min()` of an empty spread). -/
structure YearRange where
  min : Option ℤ
  max : ℤ
  deriving DecidableEq

structure UserPreferences where
  favoriteGenres : List GenrePref
  preferredRatingRange : RatingRange
  preferredYearRange : YearRange
  averageRating : ℚ
  totalWatched : ℕ
  preferredLanguages : List String
  actorPreferences : List String
  directorPreferences : List String
  deriving DecidableEq

inductive ReasonType where
  | genre
  | rating
  | actor
  | director
  | similar
  | trending
  | year
  deriving DecidableEq

structure RecommendationReason where
  type : ReasonType
  description : String
  confidence : ℚ
  deriving DecidableEq

inductive Category where
  | because_you_watched
  | genre_match
  | highly_rated
  | trending
  | similar_taste
  deriving DecidableEq

structure Recommendation where
  movie : Movie
  score : ℚ
  reasons : List RecommendationReason
  category : Category
  deriving DecidableEq

/-! ## Sorting relations (JS `Array.prototype.sort` with numeric
comparators; `List.insertionSort` is stable, matching the JS spec) -/

/-- Comparator `(a, b) => b.weight - a.weight` (descending weight). -/
def prefGE (a b : GenrePref) : Prop := b.weight ≤ a.weight

instance : DecidableRel prefGE := fun a b =>
  inferInstanceAs (Decidable (b.weight ≤ a.weight))

instance : IsTotal GenrePref prefGE := ⟨fun a b => le_total b.weight a.weight⟩

instance : IsTrans GenrePref prefGE :=
  ⟨fun _ _ _ h h' => le_trans h' h⟩

/-- Comparator `(a, b) => b - a` on years (descending). -/
def intGE (a b : ℤ) : Prop := b ≤ a

instance : DecidableRel intGE := fun a b =>
  inferInstanceAs (Decidable (b ≤ a))

instance : IsTotal ℤ intGE := ⟨fun a b => le_total b a⟩

instance : IsTrans ℤ intGE := ⟨fun _ _ _ h h' => le_trans h' h⟩

/-- Comparator `([,a], [,b]) => b - a` on `(key, count)` pairs. -/
def cntGE (a b : String × ℕ) : Prop := b.2 ≤ a.2

instance : DecidableRel cntGE := fun a b =>
  inferInstanceAs (Decidable (b.2 ≤ a.2))

instance : IsTotal (String × ℕ) cntGE := ⟨fun a b => le_total b.2 a.2⟩

instance : IsTrans (String × ℕ) cntGE := ⟨fun _ _ _ h h' => le_trans h' h⟩

/-- Comparator `(a, b) => b.score - a.score` (descending score). -/
def recGE (a b : Recommendation) : Prop := b.score ≤ a.score

instance : DecidableRel recGE := fun a b =>
  inferInstanceAs (Decidable (b.score ≤ a.score))

instance : IsTotal Recommendation recGE := ⟨fun a b => le_total b.score a.score⟩

instance : IsTrans Recommendation recGE := ⟨fun _ _ _ h h' => le_trans h' h⟩

/-- Comparator `(a, b) => (b.popularity || 0) - (a.popularity || 0)`
(descending popularity). -/
def popGE (a b : Movie) : Prop := b.popularity ≤ a.popularity

instance : DecidableRel popGE := fun a b =>
  inferInstanceAs (Decidable (b.popularity ≤ a.popularity))

instance : IsTotal Movie popGE := ⟨fun a b => le_total b.popularity a.popularity⟩

instance : IsTrans Movie popGE := ⟨fun _ _ _ h h' => le_trans h' h⟩

/-! ## Taste profile builder (`analyzePreferences`) -/

/-- `getGenreName` (lines 332–340). -/
def getGenreName (g : ℤ) : String :=
  if g = 28 then "Action" else if g = 12 then "Adventure"
  else if g = 16 then "Animation" else if g = 35 then "Comedy"
  else if g = 80 then "Crime" else if g = 99 then "Documentary"
  else if g = 18 then "Drama" else if g = 10751 then "Family"
  else if g = 14 then "Fantasy" else if g = 36 then "History"
  else if g = 27 then "Horror" else if g = 10402 then "Music"
  else if g = 9648 then "Mystery" else if g = 10749 then "Romance"
  else if g = 878 then "Science Fiction" else if g = 10770 then "TV Movie"
  else if g = 53 then "Thriller" else if g = 10752 then "War"
  else if g = 37 then "Western" else "Unknown"

/-- First-occurrence deduplication: the key order of a JS object built by
insertion (string keys) / ascending-sorted afterwards (integer-like keys). -/
def jsKeys {α : Type} [DecidableEq α] (l : List α) : List α :=
  l.foldl (fun acc s => if s ∈ acc then acc else acc ++ [s]) []

/-- `getTopItems` (lines 318–329): count trimmed lowercased occurrences,
sort by descending count (stable, insertion order of first occurrence
breaking ties) and keep the first `limit` keys. -/
def getTopItems (items : List String) (limit : ℕ) : List String :=
  let normalized := items.map (fun s => s.trim.toLower)
  let entries := (jsKeys normalized).map (fun k => (k, normalized.count k))
  ((entries.insertionSort cntGE).take limit).map (·.1)

/-- The `years` array (lines 258–262): release years pushed in watchlist
order, only dates that are present and parse to a year `> 1900`. -/
def validYears (wl : List Movie) : List ℤ :=
  wl.filterMap (fun m => m.release_date.bind
    (fun y => if 1900 < y then some y else none))

/-- Number of occurrences of genre `g` over the watchlist
(`genreCount[g].count`, counted per `genre_ids` entry). -/
def genreCnt (wl : List Movie) (g : ℤ) : ℕ :=
  (wl.map (fun m => m.genre_ids.count g)).sum

/-- `genreCount[g].totalRating`: for every occurrence of `g` in an item's
`genre_ids`, the item's `vote_average || 0` is added. -/
def genreTot (wl : List Movie) (g : ℤ) : ℚ :=
  (wl.map (fun m => (m.genre_ids.count g : ℚ) * m.vote_average)).sum

/-- The distinct genre ids of the watchlist in ascending order
(`Object.entries` enumerates integer-like keys ascending). -/
def genreIdsOf (wl : List Movie) : List ℤ :=
  (jsKeys (wl.flatMap (fun m => m.genre_ids))).insertionSort (· ≤ ·)

/-- `favoriteGenres` (lines 279–286): weight
`(count / watchlist.length) * (totalRating / count / 10)`, sorted by
descending weight, top 5 kept. -/
def favoriteGenresOf (wl : List Movie) : List GenrePref :=
  let entries := (genreIdsOf wl).map (fun g =>
    { id := g
      name := getGenreName g
      weight := ((genreCnt wl g : ℚ) / wl.length) *
        (genreTot wl g / (genreCnt wl g : ℚ) / 10) : GenrePref })
  (entries.insertionSort prefGE).take 5

/-- The filtered positive ratings of the watchlist (line 289). -/
def positiveRatings (wl : List Movie) : List ℚ :=
  (wl.map (fun m => m.vote_average)).filter (fun r => 0 < r)

/-- `avgRating` (line 290): mean of the positive ratings, `7` if none. -/
def averageRatingOf (wl : List Movie) : ℚ :=
  let ratings := positiveRatings wl
  if ratings = [] then 7 else ratings.sum / ratings.length

/-- `preferredRatingRange` (lines 291–292). -/
def prefRatingRangeOf (wl : List Movie) : RatingRange :=
  { min := jsMax (averageRatingOf wl - 3 / 2) 0, max := 10 }

/-- `preferredYearRange` (lines 294–298): years sorted descending, the
most-recent `ceil(70%)` kept, `minYear = Math.min(...recentYears) ||
currentYear - 10` (the fallback fires only on the falsy value `0`;
`Infinity`, i.e. `none`, is truthy and passes through). -/
def prefYearRangeOf (currentYear : ℤ) (wl : List Movie) : YearRange :=
  let sortedYears := (validYears wl).insertionSort intGE
  let recentYears := sortedYears.take (ceil70 sortedYears.length)
  let minRaw := jsMinList recentYears
  { min :=
      match minRaw with
      | none => none
      | some v => if v = 0 then some (currentYear - 10) else some v
    max := currentYear }

/-- The `languages` array (lines 264–267): truthy `original_language`s. -/
def languagesOf (wl : List Movie) : List String :=
  wl.filterMap (fun m => m.original_language.bind
    (fun s => if s = "" then none else some s))

/-- The `actors` array (lines 270–272): for each item with a truthy
`actors` string, the first 3 comma-separated names. -/
def actorsOf (wl : List Movie) : List String :=
  wl.flatMap (fun m =>
    match m.actors with
    | none => []
    | some s => if s = "" then [] else (s.splitOn ", ").take 3)

/-- The `directors` array (lines 273–275). -/
def directorsOf (wl : List Movie) : List String :=
  wl.filterMap (fun m => m.director.bind
    (fun s => if s = "" then none else some s))

/-- The `UserPreferences` record assembled by `analyzePreferences`
(lines 305–314) for a non-empty watchlist. -/
def profileOf (currentYear : ℤ) (wl : List Movie) : UserPreferences :=
  { favoriteGenres := favoriteGenresOf wl
    preferredRatingRange := prefRatingRangeOf wl
    preferredYearRange := prefYearRangeOf currentYear wl
    averageRating := averageRatingOf wl
    totalWatched := wl.length
    preferredLanguages := getTopItems (languagesOf wl) 3
    actorPreferences := getTopItems (actorsOf wl) 10
    directorPreferences := getTopItems (directorsOf wl) 5 }

/-- `analyzePreferences` (lines 230–315).  The ambient clock value
`new Date().getFullYear()` is passed explicitly as `currentYear`. -/
def analyzePreferences (currentYear : ℤ) (wl : List Movie) :
    Option UserPreferences :=
  if wl = [] then none else some (profileOf currentYear wl)

/-! ## Candidate scorer (`calculateRecommendationScore`) -/

/-- `str.includes(pat)` on character lists (substring test). -/
def charsInclude (pat : List Char) : List Char → Bool
  | [] => pat.isEmpty
  | c :: t => pat.isPrefixOf (c :: t) || charsInclude pat t

/-- `hay.includes(pat)` for strings. -/
def jsIncludes (hay pat : String) : Bool :=
  charsInclude pat.toList hay.toList

/-- Genre matching term (lines 387–396): average preference weight over the
candidate's genre ids (0 for an unmatched genre), times weight 0.4. -/
def genreMatchScore (p : UserPreferences) (m : Movie) : ℚ :=
  if m.genre_ids.length ≠ 0 then
    (((m.genre_ids.map (fun g =>
        ((p.favoriteGenres.find? (fun gp => gp.id == g)).map
          (fun gp => gp.weight)).getD 0)).sum) / (m.genre_ids.length : ℚ)) *
      (2 / 5)
  else 0

/-- Rating matching term (lines 398–407): only a truthy rating inside the
preferred band contributes `min(rating / 10, 1) * 0.25`. -/
def ratingMatchScore (p : UserPreferences) (m : Movie) : ℚ :=
  if m.vote_average ≠ 0 then
    if p.preferredRatingRange.min ≤ m.vote_average ∧
        m.vote_average ≤ p.preferredRatingRange.max then
      jsMin (m.vote_average / 10) 1 * (1 / 4)
    else 0
  else 0

/-- Year preference term (lines 409–418): flat weight 0.15 if the release
year lies in the preferred band.  A band minimum of `Infinity` (`none`)
satisfies no year. -/
def yearMatchScore (p : UserPreferences) (m : Movie) : ℚ :=
  match m.release_date with
  | none => 0
  | some y =>
    match p.preferredYearRange.min with
    | none => 0
    | some mn =>
      if mn ≤ y ∧ y ≤ p.preferredYearRange.max then 3 / 20 else 0

/-- Popularity boost term (lines 420–426): `min(popularity / 1000, 1) * 0.1`
for a truthy popularity. -/
def popularityBoostScore (m : Movie) : ℚ :=
  if m.popularity ≠ 0 then jsMin (m.popularity / 1000) 1 * (1 / 10) else 0

/-- Raw people score (lines 428–444): fractional overlap of the candidate's
lowercased actor list with the preferred actors times 0.7, plus a flat 0.3
on a director match. -/
def peopleRawScore (p : UserPreferences) (m : Movie) : ℚ :=
  let actorPart : ℚ :=
    match m.actors with
    | none => 0
    | some s =>
      if s ≠ "" ∧ p.actorPreferences ≠ [] then
        let movieActors := s.toLower.splitOn ", "
        let matching := movieActors.filter
          (fun a => p.actorPreferences.any (fun pref => jsIncludes a pref))
        ((matching.length : ℚ) / (movieActors.length : ℚ)) * (7 / 10)
      else 0
  let directorPart : ℚ :=
    match m.director with
    | none => 0
    | some d =>
      if d ≠ "" ∧ p.directorPreferences ≠ [] ∧
          p.directorPreferences.any (fun pref => jsIncludes d.toLower pref) then
        3 / 10
      else 0
  actorPart + directorPart

/-- People term: `min(peopleScore, 1) * 0.1` (line 445). -/
def peopleMatchScore (p : UserPreferences) (m : Movie) : ℚ :=
  jsMin (peopleRawScore p m) 1 * (1 / 10)

/-- `maxScore` accumulated over the five always-counted weights
(0.4 + 0.25 + 0.15 + 0.1 + 0.1). -/
def maxScoreConst : ℚ := 2 / 5 + 1 / 4 + 3 / 20 + 1 / 10 + 1 / 10

/-- `calculateRecommendationScore` (lines 381–448):
`Math.min(score / maxScore, 1)`. -/
def calculateRecommendationScore (p : UserPreferences) (m : Movie) : ℚ :=
  jsMin ((genreMatchScore p m + ratingMatchScore p m + yearMatchScore p m +
    popularityBoostScore m + peopleMatchScore p m) / maxScoreConst) 1

/-- `toFixed(1)` of a non-negative rational, used in the rating reason. -/
def toFixed1 (q : ℚ) : String :=
  let n : ℤ := ratFloor (q * 10 + 1 / 2)
  toString (n / 10) ++ "." ++ toString (n % 10)

/-- `generateReasons` (lines 451–482). -/
def generateReasons (p : UserPreferences) (m : Movie) :
    List RecommendationReason :=
  let genreReasons : List RecommendationReason :=
    let matching := m.genre_ids.filterMap
      (fun g => p.favoriteGenres.find? (fun gp => gp.id == g))
    match matching.insertionSort prefGE with
    | [] => []
    | top :: _ =>
      [{ type := .genre
         description := "You enjoy " ++ top.name ++ " movies"
         confidence := top.weight }]
  let ratingReasons : List RecommendationReason :=
    if m.vote_average ≠ 0 ∧ p.preferredRatingRange.min ≤ m.vote_average then
      [{ type := .rating
         description := "Highly rated (" ++ toFixed1 m.vote_average ++ "/10)"
         confidence := jsMin (m.vote_average / 10) 1 }]
    else []
  (genreReasons ++ ratingReasons).take 3

/-- `determineCategory` (lines 485–496). -/
def determineCategory (m : Movie) (reasons : List RecommendationReason) :
    Category :=
  if reasons.any (fun r => r.type == .genre && decide (7 / 10 < r.confidence))
  then .genre_match
  else if m.vote_average ≠ 0 ∧ 8 ≤ m.vote_average then .highly_rated
  else if m.popularity ≠ 0 ∧ 500 < m.popularity then .trending
  else .similar_taste

/-! ## Recommendation ranker (`generateRecommendations`) -/

/-- `generateTrendingRecommendations` (lines 499–517): candidates with
truthy popularity above 100, sorted by descending popularity, first
`limit`, each mapped to a `trending` recommendation with score
`min(popularity / 1000, 1)` and a fixed reason of confidence 0.8. -/
def generateTrendingRecommendations (cands : List Movie) (limit : ℕ) :
    List Recommendation :=
  ((((cands.filter (fun m => m.popularity ≠ 0 ∧ 100 < m.popularity))
      |>.insertionSort popGE).take limit).map (fun m =>
    { movie := m
      score := jsMin (m.popularity / 1000) 1
      reasons := [{ type := .trending
                    description := "Currently trending"
                    confidence := 4 / 5 }]
      category := .trending }))

/-- The `recommendations` array built by the personalized loop
(lines 355–373) before sorting and truncation: candidates whose id matches
a watchlist item are skipped, the rest are kept when their score exceeds
the 0.3 threshold. -/
def personalizedPool (p : UserPreferences) (wl cands : List Movie) :
    List Recommendation :=
  cands.filterMap (fun m =>
    if wl.any (fun w => w.id == m.id) then none
    else
      let score := calculateRecommendationScore p m
      let reasons := generateReasons p m
      let category := determineCategory m reasons
      if 3 / 10 < score then
        some { movie := m, score := score, reasons := reasons,
               category := category }
      else none)

/-- `generateRecommendations` (lines 343–378): cold-start (empty watchlist,
hence absent preferences) delegates to
`generateTrendingRecommendations`; otherwise the personalized pool is
sorted by descending score and truncated to `limit`. -/
def generateRecommendations (currentYear : ℤ) (wl cands : List Movie)
    (limit : ℕ) : List Recommendation :=
  match analyzePreferences currentYear wl with
  | none => generateTrendingRecommendations cands limit
  | some p => ((personalizedPool p wl cands).insertionSort recGE).take limit

/-! ## Claim-side definitions (phrased from the specification) -/

/-- Number of saved items whose genre list contains `g`
(the claim's `occurrenceCount`). -/
def occurrenceCount (wl : List Movie) (g : ℤ) : ℕ :=
  (wl.filter (fun m => decide (g ∈ m.genre_ids))).length

/-- The claim's `averageRatingOfItemsWithThatGenre`: mean `vote_average`
over the saved items whose genre list contains `g`. -/
def specAvgRatingWithGenre (wl : List Movie) (g : ℤ) : ℚ :=
  (((wl.filter (fun m => decide (g ∈ m.genre_ids))).map
    (fun m => m.vote_average)).sum) / (occurrenceCount wl g : ℚ)

/-- Claim-side genre table: one entry per distinct genre id appearing in
the saved list (in ascending id order), carrying the claimed weight
`(occurrenceCount / totalSavedItems) * (averageRatingOfItemsWithThatGenre / 10)`. -/
def specGenreEntries (wl : List Movie) : List GenrePref :=
  (((wl.flatMap (fun m => m.genre_ids)).dedup).insertionSort (· ≤ ·)).map
    (fun g => ⟨g, getGenreName g,
      ((occurrenceCount wl g : ℚ) / wl.length) *
        (specAvgRatingWithGenre wl g / 10)⟩)

/-- The most-recent `ceil(70%)` of a list of years, with multiplicity. -/
def recent70 (ys : List ℤ) : List ℤ :=
  (ys.insertionSort intGE).take (ceil70 ys.length)

/-- The most-recent `ceil(70%)` of the *distinct* years of the list, as the
spec's year-band sentence reads. -/
def distinctRecent70 (ys : List ℤ) : List ℤ :=
  (ys.dedup.insertionSort intGE).take (ceil70 ys.dedup.length)

/-! ## Sample inputs used in witnesses and counterexamples -/

/-- A saved item: genre Action (28), rating 9.0, year 2020
(spec §8 scenario 1). -/
def savedAction : Movie :=
  ⟨1, .movie, "A", 9, [28], some 2020, 50, none, none, none⟩

/-- A candidate sharing the saved item's id `1` but of the other content
kind (`tv`): genre [28], rating 8.5, year 2021, popularity 600. -/
def candSameIdTv : Movie :=
  ⟨1, .tv, "B", 17 / 2, [28], some 2021, 600, none, none, none⟩

/-- The same strong candidate with fresh id `2` (spec §8 scenario 2). -/
def candFreshId : Movie :=
  ⟨2, .movie, "C", 17 / 2, [28], some 2021, 600, none, none, none⟩

/-- A candidate with popularity 150 and no other signal. -/
def candPop150 : Movie :=
  ⟨3, .movie, "D", 7, [], none, 150, none, none, none⟩

/-- A candidate with popularity 900 and no other signal. -/
def candPop900 : Movie :=
  ⟨4, .movie, "E", 7, [], none, 900, none, none, none⟩

/-- A four-item watchlist with release years 2020, 2020, 2020, 2000 (and no
other usable metadata). -/
def watchlistYears4 : List Movie :=
  [⟨11, .movie, "F", 0, [], some 2020, 0, none, none, none⟩,
   ⟨12, .movie, "G", 0, [], some 2020, 0, none, none, none⟩,
   ⟨13, .movie, "H", 0, [], some 2020, 0, none, none, none⟩,
   ⟨14, .movie, "I", 0, [], some 2000, 0, none, none, none⟩]

/-- A one-item watchlist whose item has no release date at all. -/
def watchlistNoYears : List Movie :=
  [⟨21, .movie, "J", 8, [18], none, 10, none, none, none⟩]

/-- A default recommendation used as the `headD` fallback in witnesses. -/
def fallbackRec : Recommendation := ⟨candPop150, 0, [], .similar_taste⟩

/-! ## Shared helper lemmas -/

theorem jsMin_eq_min (a b : ℚ) : jsMin a b = min a b := (min_def a b).symm

theorem jsMax_eq_max (a b : ℚ) : jsMax a b = max a b := (max_def a b).symm

theorem intMin_eq_min (a b : ℤ) : intMin a b = min a b := (min_def a b).symm

theorem ratFloor_eq_floor (q : ℚ) : ratFloor q = ⌊q⌋ := by
  rw [ratFloor, Rat.floor_def', Rat.floor_def]

theorem jsRound10_zero : jsRound10 0 = 0 := by decide

/-! ## Claims C2 and C3: rating aggregation -/

/-- C2, counterexample: for the ratings record with primary score 7 and
secondary-critic score 8 (other providers absent), the code returns
`7.6` while the claimed exact weighted average is `91/12 = 7.58333…`;
the two differ, so the aggregated score does not equal the weighted
average of the present provider scores. -/
theorem C2_counterexample :
    calculateAggregatedScore ⟨7, some 8, none, none⟩ = 38 / 5 ∧
    specWeightedAverage ⟨7, some 8, none, none⟩ = 91 / 12 ∧
    (38 / 5 : ℚ) ≠ 91 / 12 :=
  ⟨by decide, by decide, by decide⟩

/-- C2, amended: for every ratings record, the aggregated score equals the
weight-renormalized average of the present provider scores (primary 0.25,
secondary-critic 0.35, aggregator-critics 0.25 with score divided by 10,
aggregator-metascore 0.15 with score divided by 10; a score of exactly 0
counting as absent; 0 when nothing is present) **rounded to one decimal
digit** (`Math.round(x * 10) / 10`). -/
theorem C2_aggregated_is_rounded_weighted_average (r : ProviderRatings) :
    calculateAggregatedScore r = jsRound10 (specWeightedAverage r) := by
  unfold calculateAggregatedScore specWeightedAverage
  by_cases h1 : 0 < r.tmdb <;> by_cases h2 : optPos r.imdb = true <;>
    by_cases h3 : optPos r.rottenTomatoesCritics = true <;>
    by_cases h4 : optPos r.metacritic = true <;>
    simp only [h1, h2, h3, h4, if_true, if_false, Bool.false_eq_true,
      List.cons_append, List.nil_append, List.map_cons, List.map_nil,
      List.sum_cons, List.sum_nil, reduceCtorEq, if_neg, if_pos] <;>
    norm_num <;>
    (try (congr 1 ; ring))
  exact jsRound10_zero.symm

/-- C3, counterexample: a ratings record whose only positive provider score
is the primary score `8.44` aggregates to `8.4`, not to `8.44` unchanged:
the single-provider score is rounded to one decimal digit. -/
theorem C3_counterexample :
    calculateAggregatedScore ⟨211 / 25, none, none, none⟩ = 42 / 5 ∧
    (42 / 5 : ℚ) ≠ 211 / 25 :=
  ⟨by decide, by decide⟩

/-- C3, amended: for every ratings record in which exactly one provider has
a positive score (the remaining providers absent or with non-positive
score), the aggregated score equals that provider's score — divided by 10
first for the two 0–100-scale providers — **rounded to one decimal
digit**; in particular the absent providers' weights do not scale it
down. -/
theorem C3_single_provider_rounded (v : ℚ) (hv : 0 < v) (t : ℚ) (ht : t ≤ 0)
    (i rt m : Option ℚ) (hi : optPos i = false) (hrt : optPos rt = false)
    (hm : optPos m = false) :
    calculateAggregatedScore ⟨v, i, rt, m⟩ = jsRound10 v ∧
    calculateAggregatedScore ⟨t, some v, rt, m⟩ = jsRound10 v ∧
    calculateAggregatedScore ⟨t, i, some v, m⟩ = jsRound10 (v / 10) ∧
    calculateAggregatedScore ⟨t, i, rt, some v⟩ = jsRound10 (v / 10) := by
  have ht' : ¬ (0 < t) := not_lt.mpr ht
  have hv' : optPos (some v) = true := by simp [optPos, hv]
  refine ⟨?_, ?_, ?_, ?_⟩ <;>
    simp only [calculateAggregatedScore, hi, hrt, hm, ht', hv', if_true,
      if_false, Bool.false_eq_true, if_pos hv, List.cons_append,
      List.nil_append, List.append_nil, List.map_cons, List.map_nil,
      List.sum_cons, List.sum_nil, reduceCtorEq, Option.getD_some] <;>
    norm_num

/-- C3, witness: the amended theorem applied to the primary score 7 with
every other provider absent (`Math.round(70)/10 = 7`). -/
theorem C3_single_provider_rounded_witness :
    calculateAggregatedScore ⟨7, none, none, none⟩ = jsRound10 7 :=
  (C3_single_provider_rounded 7 (by decide) 0 (by decide) none none none
    (by decide) (by decide) (by decide)).1

/-! ## Helper lemmas about the profile builder -/

theorem positiveRatings_eq_nil {wl : List Movie}
    (hr : ∀ m ∈ wl, m.vote_average ≤ 0) : positiveRatings wl = [] := by
  rw [positiveRatings, List.filter_eq_nil_iff]
  intro a ha
  rcases List.mem_map.mp ha with ⟨m, hm, rfl⟩
  simpa using not_lt.mpr (hr m hm)

theorem validYears_eq_nil {wl : List Movie}
    (hy : ∀ m ∈ wl, ∀ y ∈ m.release_date, y ≤ 1900) : validYears wl = [] := by
  rw [validYears, List.filterMap_eq_nil_iff]
  intro m hm
  cases hd : m.release_date with
  | none => rfl
  | some y =>
    have := hy m hm y (by rw [hd] ; rfl)
    simp [Option.bind, not_lt.mpr this]

theorem mem_validYears {wl : List Movie} {y : ℤ}
    (h : y ∈ validYears wl) : 1900 < y := by
  rw [validYears, List.mem_filterMap] at h
  rcases h with ⟨m, _, hm⟩
  cases hd : m.release_date with
  | none => rw [hd] at hm ; cases hm
  | some z =>
    rw [hd] at hm
    by_cases hz : 1900 < z
    · simp [Option.bind, hz] at hm
      exact hm ▸ hz
    · simp [Option.bind, hz] at hm

theorem jsMinList_mem : ∀ {l : List ℤ} {v : ℤ}, jsMinList l = some v → v ∈ l
  | [], _, h => by cases h
  | y :: t, v, h => by
    rw [jsMinList] at h
    cases ht : jsMinList t with
    | none =>
      rw [ht] at h
      simp only [Option.some.injEq] at h
      exact h ▸ List.mem_cons_self y t
    | some m =>
      rw [ht] at h
      simp only [Option.some.injEq] at h
      rw [intMin_eq_min] at h
      rcases min_choice y m with hc | hc <;> rw [hc] at h
      · exact h ▸ List.mem_cons_self y t
      · exact h ▸ List.mem_cons_of_mem y (jsMinList_mem ht)

theorem jsMinList_ne_nil {l : List ℤ} (h : l ≠ []) :
    ∃ v, jsMinList l = some v := by
  cases l with
  | nil => exact absurd rfl h
  | cons y t => exact ⟨_, rfl⟩

theorem ceil70_pos {n : ℕ} (h : 1 ≤ n) : 1 ≤ ceil70 n := by
  rw [ceil70, Nat.le_div_iff_mul_le (by norm_num)]
  omega

theorem recent70_ne_nil {ys : List ℤ} (h : ys ≠ []) : recent70 ys ≠ [] := by
  rw [recent70]
  have hlen : (ys.insertionSort intGE).length = ys.length :=
    (List.perm_insertionSort intGE ys).length_eq
  intro hnil
  rw [← List.length_eq_zero] at hnil
  rw [List.length_take, hlen] at hnil
  have h1 : 1 ≤ ys.length := List.length_pos.mpr h
  have := ceil70_pos h1
  omega

theorem mem_recent70 {ys : List ℤ} {v : ℤ} (h : v ∈ recent70 ys) : v ∈ ys := by
  rw [recent70] at h
  exact (List.perm_insertionSort intGE ys).mem_iff.mp
    (List.mem_of_mem_take h)

theorem mem_foldl_keys {α : Type} [DecidableEq α] :
    ∀ (l acc : List α) (x : α),
      x ∈ l.foldl (fun acc s => if s ∈ acc then acc else acc ++ [s]) acc ↔
        x ∈ acc ∨ x ∈ l := by
  intro l
  induction l with
  | nil => simp
  | cons s t ih =>
    intro acc x
    rw [List.foldl_cons, ih]
    by_cases hs : s ∈ acc
    · rw [if_pos hs]
      simp only [List.mem_cons]
      constructor
      · rintro (h | h) <;> tauto
      · rintro (h | h | h)
        · tauto
        · subst h ; tauto
        · tauto
    · rw [if_neg hs]
      simp only [List.mem_append, List.mem_singleton, List.mem_cons]
      tauto

theorem mem_jsKeys {α : Type} [DecidableEq α] {l : List α} {x : α} :
    x ∈ jsKeys l ↔ x ∈ l := by
  rw [jsKeys, mem_foldl_keys]
  simp

theorem genreCnt_eq_occurrenceCount {g : ℤ} :
    ∀ {wl : List Movie}, (∀ m ∈ wl, m.genre_ids.Nodup) →
      genreCnt wl g = occurrenceCount wl g := by
  intro wl hnd
  induction wl with
  | nil => rfl
  | cons m t ih =>
    have hm := hnd m (List.mem_cons_self m t)
    have ht : ∀ x ∈ t, x.genre_ids.Nodup :=
      fun x hx => hnd x (List.mem_cons_of_mem m hx)
    rw [genreCnt, List.map_cons, List.sum_cons, occurrenceCount,
      List.filter_cons]
    by_cases hg : g ∈ m.genre_ids
    · rw [List.count_eq_one_of_mem hm hg, if_pos (by simpa using hg),
        List.length_cons]
      have := ih ht
      rw [genreCnt] at this
      rw [this, occurrenceCount]
      omega
    · rw [List.count_eq_zero.mpr hg, if_neg (by simpa using hg)]
      have := ih ht
      rw [genreCnt] at this
      rw [this, occurrenceCount]
      omega

theorem genreTot_eq_sum {g : ℤ} :
    ∀ {wl : List Movie}, (∀ m ∈ wl, m.genre_ids.Nodup) →
      genreTot wl g = ((wl.filter (fun m => decide (g ∈ m.genre_ids))).map
        (fun m => m.vote_average)).sum := by
  intro wl hnd
  induction wl with
  | nil => rfl
  | cons m t ih =>
    have hm := hnd m (List.mem_cons_self m t)
    have ht : ∀ x ∈ t, x.genre_ids.Nodup :=
      fun x hx => hnd x (List.mem_cons_of_mem m hx)
    have hih := ih ht
    rw [genreTot, List.map_cons, List.sum_cons, List.filter_cons]
    rw [genreTot] at hih
    by_cases hg : g ∈ m.genre_ids
    · rw [List.count_eq_one_of_mem hm hg, if_pos (by simpa using hg),
        List.map_cons, List.sum_cons, hih]
      push_cast
      ring
    · rw [List.count_eq_zero.mpr hg, if_neg (by simpa using hg), hih]
      push_cast
      ring

theorem occurrenceCount_pos {wl : List Movie} {g : ℤ}
    (hg : g ∈ genreIdsOf wl) : 0 < occurrenceCount wl g := by
  rw [genreIdsOf] at hg
  have h1 : g ∈ jsKeys (wl.flatMap fun m => m.genre_ids) :=
    (List.perm_insertionSort _ _).mem_iff.mp hg
  have h2 : g ∈ wl.flatMap (fun m => m.genre_ids) := mem_jsKeys.mp h1
  rcases List.mem_flatMap.mp h2 with ⟨m, hm, hgm⟩
  rw [occurrenceCount, List.length_pos]
  intro hnil
  have hmem : m ∈ wl.filter (fun m => decide (g ∈ m.genre_ids)) :=
    List.mem_filter.mpr ⟨hm, by simpa using hgm⟩
  rw [hnil] at hmem
  cases hmem

theorem nodup_foldl_keys {α : Type} [DecidableEq α] :
    ∀ (l acc : List α), acc.Nodup →
      (l.foldl (fun acc s => if s ∈ acc then acc else acc ++ [s]) acc).Nodup := by
  intro l
  induction l with
  | nil => exact fun acc h => h
  | cons s t ih =>
    intro acc h
    rw [List.foldl_cons]
    apply ih
    by_cases hs : s ∈ acc
    · rw [if_pos hs]
      exact h
    · rw [if_neg hs]
      rw [List.nodup_append]
      refine ⟨h, List.nodup_singleton s, ?_⟩
      intro x hx hxs
      rw [List.mem_singleton] at hxs
      exact hs (hxs ▸ hx)

theorem jsKeys_nodup {α : Type} [DecidableEq α] (l : List α) :
    (jsKeys l).Nodup :=
  nodup_foldl_keys l [] List.nodup_nil

theorem genreIdsOf_eq (wl : List Movie) :
    genreIdsOf wl =
      ((wl.flatMap (fun m => m.genre_ids)).dedup).insertionSort (· ≤ ·) := by
  rw [genreIdsOf]
  have hmid : (jsKeys (wl.flatMap fun m => m.genre_ids)).Perm
      ((wl.flatMap fun m => m.genre_ids).dedup) := by
    apply List.perm_of_nodup_nodup_toFinset_eq (jsKeys_nodup _)
      ((wl.flatMap fun m => m.genre_ids).nodup_dedup)
    ext x
    simp [mem_jsKeys, List.mem_dedup]
  exact List.eq_of_perm_of_sorted
    (((List.perm_insertionSort _ _).trans hmid).trans
      (List.perm_insertionSort _ _).symm)
    (List.sorted_insertionSort _ _) (List.sorted_insertionSort _ _)

theorem mem_favoriteGenresOf {wl : List Movie} {e : GenrePref}
    (he : e ∈ favoriteGenresOf wl) :
    ∃ g ∈ genreIdsOf wl,
      e = ⟨g, getGenreName g, ((genreCnt wl g : ℚ) / wl.length) *
        (genreTot wl g / (genreCnt wl g : ℚ) / 10)⟩ := by
  rw [favoriteGenresOf] at he
  have h1 := List.mem_of_mem_take he
  have h2 := (List.perm_insertionSort prefGE _).mem_iff.mp h1
  rcases List.mem_map.mp h2 with ⟨g, hg, rfl⟩
  exact ⟨g, hg, rfl⟩

theorem favoriteGenresOf_eq_spec {wl : List Movie}
    (hnd : ∀ m ∈ wl, m.genre_ids.Nodup) :
    favoriteGenresOf wl =
      ((specGenreEntries wl).insertionSort prefGE).take 5 := by
  rw [favoriteGenresOf]
  have hmap : (genreIdsOf wl).map (fun g =>
      ({ id := g
         name := getGenreName g
         weight := ((genreCnt wl g : ℚ) / wl.length) *
           (genreTot wl g / (genreCnt wl g : ℚ) / 10) } : GenrePref)) =
      specGenreEntries wl := by
    rw [genreIdsOf_eq, specGenreEntries]
    apply List.map_congr_left
    intro g _
    rw [genreCnt_eq_occurrenceCount hnd, genreTot_eq_sum hnd,
      specAvgRatingWithGenre]
  rw [hmap]

/-! ## Helper lemmas about the ranker -/

theorem analyzePreferences_eq_some {cy : ℤ} {wl : List Movie} (h : wl ≠ []) :
    analyzePreferences cy wl = some (profileOf cy wl) := by
  rw [analyzePreferences, if_neg h]

theorem mem_personalizedPool {p : UserPreferences} {wl cands : List Movie}
    {r : Recommendation} (hr : r ∈ personalizedPool p wl cands) :
    (∀ w ∈ wl, w.id ≠ r.movie.id) ∧ 3 / 10 < r.score := by
  rw [personalizedPool] at hr
  rcases List.mem_filterMap.mp hr with ⟨m, _, hm⟩
  by_cases hid : wl.any (fun w => w.id == m.id)
  · rw [if_pos hid] at hm
    cases hm
  · rw [if_neg hid] at hm
    by_cases hs : 3 / 10 < calculateRecommendationScore p m
    · rw [if_pos hs] at hm
      cases hm
      constructor
      · intro w hw
        have := (List.any_eq_false.mp (Bool.eq_false_iff.mpr hid)) w hw
        simpa using this
      · exact hs
    · rw [if_neg hs] at hm
      cases hm

/-! ## Helper lemmas about the scorer's sub-terms -/

theorem genreMatchScore_nonneg {p : UserPreferences} {m : Movie}
    (hw : ∀ g ∈ p.favoriteGenres, 0 ≤ g.weight) : 0 ≤ genreMatchScore p m := by
  rw [genreMatchScore]
  split
  · apply mul_nonneg _ (by norm_num)
    apply div_nonneg _ (Nat.cast_nonneg _)
    apply List.sum_nonneg
    intro x hx
    rcases List.mem_map.mp hx with ⟨g, _, rfl⟩
    cases hfind : p.favoriteGenres.find? (fun gp => gp.id == g) with
    | none => simp
    | some gp =>
      simp only [hfind, Option.map_some', Option.getD_some]
      exact hw gp (List.mem_of_find?_eq_some hfind)
  · exact le_refl 0

theorem ratingMatchScore_nonneg {p : UserPreferences} {m : Movie}
    (hva : 0 ≤ m.vote_average) : 0 ≤ ratingMatchScore p m := by
  rw [ratingMatchScore]
  split
  · split
    · rw [jsMin_eq_min]
      exact mul_nonneg (le_min (by positivity) zero_le_one) (by norm_num)
    · exact le_refl 0
  · exact le_refl 0

theorem yearMatchScore_nonneg {p : UserPreferences} {m : Movie} :
    0 ≤ yearMatchScore p m := by
  rw [yearMatchScore]
  cases m.release_date with
  | none => exact le_refl 0
  | some y =>
    cases p.preferredYearRange.min with
    | none => exact le_refl 0
    | some mn => dsimp only ; split <;> norm_num

theorem popularityBoostScore_nonneg {m : Movie}
    (hpop : 0 ≤ m.popularity) : 0 ≤ popularityBoostScore m := by
  rw [popularityBoostScore]
  split
  · rw [jsMin_eq_min]
    exact mul_nonneg (le_min (by positivity) zero_le_one) (by norm_num)
  · exact le_refl 0

theorem peopleRawScore_nonneg {p : UserPreferences} {m : Movie} :
    0 ≤ peopleRawScore p m := by
  rw [peopleRawScore]
  apply add_nonneg
  · cases m.actors with
    | none => exact le_refl 0
    | some s =>
      dsimp only
      split
      · exact mul_nonneg (div_nonneg (Nat.cast_nonneg _) (Nat.cast_nonneg _))
          (by norm_num)
      · exact le_refl 0
  · cases m.director with
    | none => exact le_refl 0
    | some d => dsimp only ; split <;> norm_num

theorem peopleMatchScore_nonneg {p : UserPreferences} {m : Movie} :
    0 ≤ peopleMatchScore p m := by
  rw [peopleMatchScore, jsMin_eq_min]
  exact mul_nonneg (le_min peopleRawScore_nonneg zero_le_one) (by norm_num)

/-! ## Claim C1: minimum-score cutoff -/

/-- C1, counterexample: in cold-start mode (empty saved list) a candidate
with popularity 150 is returned with score `150 / 1000 = 0.15 < 0.3`, so
not every recommendation returned by `generateRecommendations` has score
`≥ 0.3`. -/
theorem C1_counterexample :
    (generateRecommendations 2025 [] [candPop150] 20).map
      (fun r => r.score) = [3 / 20] ∧
    ¬ (3 / 10 ≤ (3 / 20 : ℚ)) :=
  ⟨by decide, by decide⟩

/-- C1, amended: in personalized mode (non-empty saved list) every
recommendation returned by `generateRecommendations` has score `≥ 0.3`
(the code in fact demands strictly more than 0.3, so lower-scoring
candidates are excluded rather than returned); in cold-start mode the
score is `min(popularity / 1000, 1)`, which can be below 0.3. -/
theorem C1_personalized_cutoff (cy : ℤ) (wl cands : List Movie) (limit : ℕ)
    (hne : wl ≠ []) :
    ∀ r ∈ generateRecommendations cy wl cands limit, 3 / 10 ≤ r.score := by
  intro r hr
  rw [generateRecommendations, analyzePreferences_eq_some hne] at hr
  have h1 := List.mem_of_mem_take hr
  have h2 := (List.perm_insertionSort recGE _).mem_iff.mp h1
  exact le_of_lt (mem_personalizedPool h2).2

/-- C1, witness: for the one-item saved list `[savedAction]` and the strong
candidate `candFreshId` the single returned recommendation scores
`0.7825 ≥ 0.3`. -/
theorem C1_personalized_cutoff_witness :
    3 / 10 ≤ ((generateRecommendations 2025 [savedAction] [candFreshId]
      20).headD fallbackRec).score :=
  C1_personalized_cutoff 2025 [savedAction] [candFreshId] 20 (by decide) _
    (by decide)

/-! ## Claim C4: deduplication key -/

/-- C4, counterexample: the candidate `candSameIdTv` has `(id, kind) =
(1, tv)`, which matches no saved item of `[savedAction]` (saved kind is
`movie`), and its score `0.7825` clears the cutoff — yet the output is
empty, because the code skips on matching `id` alone.  So it is not the
case that every candidate whose `(id, kind)` matches no saved item is
scored and eligible for output. -/
theorem C4_counterexample :
    (∀ w ∈ [savedAction],
      ¬ (w.id = candSameIdTv.id ∧ w.kind = candSameIdTv.kind)) ∧
    3 / 10 < calculateRecommendationScore (profileOf 2025 [savedAction])
      candSameIdTv ∧
    generateRecommendations 2025 [savedAction] [candSameIdTv] 20 = [] :=
  ⟨by decide, by decide, by decide⟩

/-- C4, amended: in personalized mode the duplicate check compares ids
only, ignoring the content kind: the output never contains a
recommendation whose id — and a fortiori whose `(id, kind)` pair — matches
a saved item, and every candidate whose id matches no saved item and
whose score clears the cutoff enters the pre-truncation recommendation
pool. -/
theorem C4_dedup_by_id_only (cy : ℤ) (wl cands : List Movie) (limit : ℕ)
    (hne : wl ≠ []) :
    (∀ r ∈ generateRecommendations cy wl cands limit,
      ∀ w ∈ wl, ¬ (w.id = r.movie.id ∧ w.kind = r.movie.kind)) ∧
    (∀ r ∈ generateRecommendations cy wl cands limit,
      ∀ w ∈ wl, w.id ≠ r.movie.id) ∧
    (∀ c ∈ cands, (∀ w ∈ wl, w.id ≠ c.id) →
      3 / 10 < calculateRecommendationScore (profileOf cy wl) c →
      ∃ r ∈ personalizedPool (profileOf cy wl) wl cands, r.movie = c) := by
  have hmem : ∀ r ∈ generateRecommendations cy wl cands limit,
      ∀ w ∈ wl, w.id ≠ r.movie.id := by
    intro r hr
    rw [generateRecommendations, analyzePreferences_eq_some hne] at hr
    have h1 := List.mem_of_mem_take hr
    have h2 := (List.perm_insertionSort recGE _).mem_iff.mp h1
    exact (mem_personalizedPool h2).1
  refine ⟨fun r hr w hw hk => hmem r hr w hw hk.1, hmem, ?_⟩
  intro c hc hid hs
  refine ⟨⟨c, calculateRecommendationScore (profileOf cy wl) c,
    generateReasons (profileOf cy wl) c,
    determineCategory c (generateReasons (profileOf cy wl) c)⟩, ?_, rfl⟩
  rw [personalizedPool]
  apply List.mem_filterMap.mpr
  refine ⟨c, hc, ?_⟩
  have hany : (wl.any fun w => w.id == c.id) = false := by
    rw [List.any_eq_false]
    intro w hw
    simpa using hid w hw
  simp only [hany, Bool.false_eq_true, if_false, if_pos hs]

/-- C4, witness: the candidate with fresh id 2 is not id-blocked by the
saved item with id 1 and, scoring `0.7825 > 0.3`, enters the pool. -/
theorem C4_dedup_by_id_only_witness :
    ∃ r ∈ personalizedPool (profileOf 2025 [savedAction]) [savedAction]
      [candFreshId], r.movie = candFreshId :=
  (C4_dedup_by_id_only 2025 [savedAction] [candFreshId] 20
    (by decide)).2.2 candFreshId (by decide) (by decide) (by decide)

/-! ## Claim C5: cold-start guarantee -/

/-- C5: `analyzePreferences` of an empty saved list is `none`, and for the
empty saved list the output of `generateRecommendations` consists exactly
of the first `limit` of the candidates with popularity above the floor of
100, sorted by descending popularity (stably, as the JS sort does): the
mapped movie list *equals* that sorted-filtered prefix, so no qualifying
candidate is dropped and none below the floor sneaks in.  Every returned
item is tagged category `trending`, carries the single fixed reason of
confidence 0.8, and scores `min(popularity / 1000, 1)`. -/
theorem C5_cold_start (cy : ℤ) (cands : List Movie) (limit : ℕ) :
    analyzePreferences cy [] = none ∧
    (generateRecommendations cy [] cands limit).length ≤ limit ∧
    (generateRecommendations cy [] cands limit).map (fun r => r.movie) =
      ((cands.filter (fun m => decide (100 < m.popularity))).insertionSort
        popGE).take limit ∧
    List.Pairwise (fun a b => b.movie.popularity ≤ a.movie.popularity)
      (generateRecommendations cy [] cands limit) ∧
    ∀ r ∈ generateRecommendations cy [] cands limit,
      r.category = .trending ∧
      r.reasons = [⟨.trending, "Currently trending", 4 / 5⟩] ∧
      r.score = jsMin (r.movie.popularity / 1000) 1 ∧
      100 < r.movie.popularity ∧ r.movie ∈ cands := by
  have hgen : generateRecommendations cy [] cands limit =
      generateTrendingRecommendations cands limit := rfl
  have hfilter : cands.filter
        (fun m => decide (m.popularity ≠ 0 ∧ 100 < m.popularity)) =
      cands.filter (fun m => decide (100 < m.popularity)) := by
    apply List.filter_congr
    intro m _
    rw [decide_eq_decide]
    constructor
    · exact fun h => h.2
    · exact fun h => ⟨(ne_of_gt (lt_trans (by norm_num) h)), h⟩
  refine ⟨rfl, ?_, ?_, ?_, ?_⟩
  · rw [hgen, generateTrendingRecommendations, List.length_map]
    exact List.length_take_le _ _
  · rw [hgen, generateTrendingRecommendations, List.map_map]
    rw [show ((fun r : Recommendation => r.movie) ∘ (fun m : Movie =>
      ({ movie := m, score := jsMin (m.popularity / 1000) 1,
         reasons := [⟨.trending, "Currently trending", 4 / 5⟩],
         category := .trending } : Recommendation))) = fun m => m from rfl]
    rw [List.map_id', hfilter]
  · rw [hgen, generateTrendingRecommendations, List.pairwise_map]
    exact List.Pairwise.imp (fun h => h)
      ((List.sorted_insertionSort popGE _).sublist (List.take_sublist _ _))
  · intro r hr
    rw [hgen, generateTrendingRecommendations] at hr
    rcases List.mem_map.mp hr with ⟨m, hm, rfl⟩
    have h2 := List.mem_of_mem_take hm
    have h3 := (List.perm_insertionSort popGE _).mem_iff.mp h2
    have h4 := List.mem_filter.mp h3
    refine ⟨rfl, rfl, rfl, ?_, h4.1⟩
    have h5 := h4.2
    simp only [decide_eq_true_eq] at h5
    exact h5.2

/-- C5, witness: for candidates with popularities 150 and 900 the top
cold-start recommendation (popularity 900) is tagged `trending`. -/
theorem C5_cold_start_witness :
    ((generateRecommendations 2025 [] [candPop150, candPop900] 20).headD
      fallbackRec).category = Category.trending :=
  ((C5_cold_start 2025 [candPop150, candPop900] 20).2.2.2.2 _ (by decide)).1

/-! ## Claim C6: score bounds -/

/-- C6: for every candidate with non-negative rating and popularity and
every preference profile with non-negative genre weights (all profiles
built from watchlists are of this shape, and the spec's data model demands
`weight ∈ [0, ∞)`), the recommendation score lies in `[0, 1]`. -/
theorem C6_score_bounds (p : UserPreferences) (m : Movie)
    (hw : ∀ g ∈ p.favoriteGenres, 0 ≤ g.weight)
    (hva : 0 ≤ m.vote_average) (hpop : 0 ≤ m.popularity) :
    0 ≤ calculateRecommendationScore p m ∧
      calculateRecommendationScore p m ≤ 1 := by
  rw [calculateRecommendationScore, jsMin_eq_min]
  constructor
  · apply le_min _ zero_le_one
    apply div_nonneg _ (by norm_num [maxScoreConst])
    have h1 := genreMatchScore_nonneg hw (m := m)
    have h2 := ratingMatchScore_nonneg (p := p) hva
    have h3 := yearMatchScore_nonneg (p := p) (m := m)
    have h4 := popularityBoostScore_nonneg hpop
    have h5 := peopleMatchScore_nonneg (p := p) (m := m)
    linarith
  · exact min_le_right _ _

/-- C6, witness: the profile built from `[savedAction]` and the candidate
`candFreshId` (score `0.7825`). -/
theorem C6_score_bounds_witness :
    0 ≤ calculateRecommendationScore (profileOf 2025 [savedAction])
      candFreshId ∧
    calculateRecommendationScore (profileOf 2025 [savedAction])
      candFreshId ≤ 1 :=
  C6_score_bounds (profileOf 2025 [savedAction]) candFreshId (by decide)
    (by decide) (by decide)

/-! ## Claim C7: genre weight formula -/

/-- C7: for every non-empty saved list (whose items list each genre at most
once, as catalog items do), `analyzePreferences` returns a profile whose
`favoriteGenres` is *exactly* the top 5 of the claim-side genre table
`specGenreEntries` sorted stably by descending weight; that table has one
entry per genre id appearing in the saved list (no id dropped, none
invented, none repeated), each carrying the weight
`(occurrenceCount / totalSavedItems) * (averageRatingOfItemsWithThatGenre / 10)`;
consequently the retained list is sorted by descending weight, has at most
5 entries, and each retained entry bears that weight for its (occurring)
genre id. -/
theorem C7_genre_weights (cy : ℤ) (wl : List Movie) (hne : wl ≠ [])
    (hnd : ∀ m ∈ wl, m.genre_ids.Nodup) :
    ∃ p, analyzePreferences cy wl = some p ∧
      p.favoriteGenres = ((specGenreEntries wl).insertionSort prefGE).take 5 ∧
      ((specGenreEntries wl).map (fun e => e.id)).Nodup ∧
      (∀ g, g ∈ (specGenreEntries wl).map (fun e => e.id) ↔
        ∃ m ∈ wl, g ∈ m.genre_ids) ∧
      (∀ e ∈ specGenreEntries wl,
        e.weight = ((occurrenceCount wl e.id : ℚ) / wl.length) *
          (specAvgRatingWithGenre wl e.id / 10)) ∧
      List.Sorted prefGE p.favoriteGenres ∧
      p.favoriteGenres.length ≤ 5 ∧
      ∀ e ∈ p.favoriteGenres,
        0 < occurrenceCount wl e.id ∧
        e.weight = ((occurrenceCount wl e.id : ℚ) / wl.length) *
          (specAvgRatingWithGenre wl e.id / 10) := by
  have hids : (specGenreEntries wl).map (fun e => e.id) =
      ((wl.flatMap (fun m => m.genre_ids)).dedup).insertionSort (· ≤ ·) := by
    rw [specGenreEntries, List.map_map]
    exact List.map_id _
  refine ⟨profileOf cy wl, analyzePreferences_eq_some hne, ?_, ?_, ?_, ?_, ?_,
    ?_, ?_⟩
  · exact favoriteGenresOf_eq_spec hnd
  · rw [hids]
    exact ((List.perm_insertionSort _ _).nodup_iff).mpr
      ((wl.flatMap fun m => m.genre_ids).nodup_dedup)
  · intro g
    rw [hids]
    rw [(List.perm_insertionSort (· ≤ ·) _).mem_iff, List.mem_dedup,
      List.mem_flatMap]
  · intro e he
    rcases List.mem_map.mp he with ⟨g, _, rfl⟩
    rfl
  · show List.Sorted prefGE (favoriteGenresOf wl)
    rw [favoriteGenresOf]
    exact (List.sorted_insertionSort prefGE _).sublist (List.take_sublist _ _)
  · show (favoriteGenresOf wl).length ≤ 5
    rw [favoriteGenresOf]
    exact List.length_take_le 5 _
  · intro e he
    rcases mem_favoriteGenresOf he with ⟨g, hg, rfl⟩
    refine ⟨occurrenceCount_pos hg, ?_⟩
    show ((genreCnt wl g : ℚ) / wl.length) *
        (genreTot wl g / (genreCnt wl g : ℚ) / 10) = _
    rw [genreCnt_eq_occurrenceCount hnd, genreTot_eq_sum hnd,
      specAvgRatingWithGenre]

/-- C7, witness: the spec's scenario 1 — a single saved item with genre 28
("Action") and rating 9.0 yields exactly `[{28, Action, 0.9}]`, and the
claim-side genre table for that list is that same single entry. -/
theorem C7_genre_weights_witness :
    (∃ p, analyzePreferences 2025 [savedAction] = some p ∧
      p.favoriteGenres =
        ((specGenreEntries [savedAction]).insertionSort prefGE).take 5 ∧
      ((specGenreEntries [savedAction]).map (fun e => e.id)).Nodup ∧
      (∀ g, g ∈ (specGenreEntries [savedAction]).map (fun e => e.id) ↔
        ∃ m ∈ [savedAction], g ∈ m.genre_ids) ∧
      (∀ e ∈ specGenreEntries [savedAction],
        e.weight = ((occurrenceCount [savedAction] e.id : ℚ) /
            (List.length [savedAction])) *
          (specAvgRatingWithGenre [savedAction] e.id / 10)) ∧
      List.Sorted prefGE p.favoriteGenres ∧
      p.favoriteGenres.length ≤ 5 ∧
      ∀ e ∈ p.favoriteGenres,
        0 < occurrenceCount [savedAction] e.id ∧
        e.weight = ((occurrenceCount [savedAction] e.id : ℚ) /
            (List.length [savedAction])) *
          (specAvgRatingWithGenre [savedAction] e.id / 10)) ∧
    (analyzePreferences 2025 [savedAction]).map (fun p => p.favoriteGenres) =
      some [⟨28, "Action", 9 / 10⟩] ∧
    specGenreEntries [savedAction] = [⟨28, "Action", 9 / 10⟩] :=
  ⟨C7_genre_weights 2025 [savedAction] (by decide) (by decide), by decide,
    by decide⟩

/-! ## Claim C8: preferred year band -/

/-- C8, counterexample: for the saved list with release years
2020, 2020, 2020, 2000 the code computes `preferredYearRange.min = 2020`
(it keeps `ceil(0.7·4) = 3` of the years *with multiplicity*), while the
minimum of the most-recent `ceil(0.7·2) = 2` of the *distinct* years is
2000 — so the claim's distinct-year reading does not hold. -/
theorem C8_counterexample :
    (analyzePreferences 2025 watchlistYears4).map
      (fun p => p.preferredYearRange.min) = some (some 2020) ∧
    jsMinList (distinctRecent70 (validYears watchlistYears4)) = some 2000 ∧
    (2020 : ℤ) ≠ 2000 :=
  ⟨by decide, by decide, by decide⟩

/-- C8, amended: for every non-empty saved list with at least one valid
release year, the preferred year band is
`[min(most-recent ceil(70%) of the release years counted with
multiplicity), currentYear]`. -/
theorem C8_year_band_multiplicity (cy : ℤ) (wl : List Movie) (hne : wl ≠ [])
    (hy : validYears wl ≠ []) :
    ∃ p v, analyzePreferences cy wl = some p ∧
      jsMinList (recent70 (validYears wl)) = some v ∧
      p.preferredYearRange = ⟨some v, cy⟩ := by
  rcases jsMinList_ne_nil (recent70_ne_nil hy) with ⟨v, hv⟩
  have hv1900 : 1900 < v := mem_validYears (mem_recent70 (jsMinList_mem hv))
  refine ⟨profileOf cy wl, v, analyzePreferences_eq_some hne, hv, ?_⟩
  show prefYearRangeOf cy wl = ⟨some v, cy⟩
  rw [prefYearRangeOf]
  have hlen : ((validYears wl).insertionSort intGE).length =
      (validYears wl).length :=
    (List.perm_insertionSort intGE (validYears wl)).length_eq
  have hrec : ((validYears wl).insertionSort intGE).take
      (ceil70 ((validYears wl).insertionSort intGE).length) =
      recent70 (validYears wl) := by
    rw [hlen, recent70]
  rw [hrec, hv]
  simp only [YearRange.mk.injEq]
  exact ⟨by rw [if_neg (by omega : ¬ v = 0)], trivial⟩

/-- C8, witness: the amended band for the years-2020/2020/2020/2000 saved
list is `[2020, 2025]`. -/
theorem C8_year_band_multiplicity_witness :
    ∃ p v, analyzePreferences 2025 watchlistYears4 = some p ∧
      jsMinList (recent70 (validYears watchlistYears4)) = some v ∧
      p.preferredYearRange = ⟨some v, 2025⟩ :=
  C8_year_band_multiplicity 2025 watchlistYears4 (by decide) (by decide)

/-! ## Claim C9: unreachable year fallback -/

/-- C9: for every non-empty saved list in which no item has a release date
parsing to a year above 1900, the profile's `preferredYearRange.min` is
the JavaScript value `Infinity` (modelled as `none`, since `Math.min()` of
the empty spread is `Infinity` and `Infinity || fallback` keeps
`Infinity`), and consequently the year sub-score is 0 for every
candidate. -/
theorem C9_infinite_year_min (cy : ℤ) (wl : List Movie) (hne : wl ≠ [])
    (hy : ∀ m ∈ wl, ∀ y ∈ m.release_date, y ≤ 1900) :
    ∃ p, analyzePreferences cy wl = some p ∧
      p.preferredYearRange.min = none ∧
      ∀ c, yearMatchScore p c = 0 := by
  refine ⟨profileOf cy wl, analyzePreferences_eq_some hne, ?_, ?_⟩
  · show (prefYearRangeOf cy wl).min = none
    rw [prefYearRangeOf, validYears_eq_nil hy]
    rfl
  · intro c
    have hmin : (profileOf cy wl).preferredYearRange.min = none := by
      show (prefYearRangeOf cy wl).min = none
      rw [prefYearRangeOf, validYears_eq_nil hy]
      rfl
    rw [yearMatchScore]
    cases c.release_date with
    | none => rfl
    | some y => rw [hmin]

/-- C9, witness: the one-item saved list whose item has no release date. -/
theorem C9_infinite_year_min_witness :
    ∃ p, analyzePreferences 2025 watchlistNoYears = some p ∧
      p.preferredYearRange.min = none ∧
      ∀ c, yearMatchScore p c = 0 :=
  C9_infinite_year_min 2025 watchlistNoYears (by decide) (by decide)

/-! ## Claim C10: rating-band defaults -/

/-- C10: for every non-empty saved list in which every item's rating is
missing, zero or negative, the profile is non-null with `averageRating`
defaulting to 7 and `preferredRatingRange = {min: 5.5, max: 10}`. -/
theorem C10_rating_defaults (cy : ℤ) (wl : List Movie) (hne : wl ≠ [])
    (hr : ∀ m ∈ wl, m.vote_average ≤ 0) :
    ∃ p, analyzePreferences cy wl = some p ∧
      p.averageRating = 7 ∧ p.preferredRatingRange = ⟨11 / 2, 10⟩ := by
  refine ⟨profileOf cy wl, analyzePreferences_eq_some hne, ?_, ?_⟩
  · show averageRatingOf wl = 7
    rw [averageRatingOf, positiveRatings_eq_nil hr]
    rfl
  · show prefRatingRangeOf wl = ⟨11 / 2, 10⟩
    rw [prefRatingRangeOf]
    have h7 : averageRatingOf wl = 7 := by
      rw [averageRatingOf, positiveRatings_eq_nil hr] ; rfl
    rw [h7]
    decide

/-- C10, witness: the four-item saved list with all ratings equal to 0. -/
theorem C10_rating_defaults_witness :
    ∃ p, analyzePreferences 2025 watchlistYears4 = some p ∧
      p.averageRating = 7 ∧ p.preferredRatingRange = ⟨11 / 2, 10⟩ :=
  C10_rating_defaults 2025 watchlistYears4 (by decide) (by decide)

end MovieApp
